import Mathlib

/-!
Verification development for the offline-tolerant tracking client
(src/descop.py).  The Python source is shallowly embedded below:
pure control flow becomes Lean functions, the SQLite queue store becomes
an explicit state value threaded through the queue operations, exceptions
become Option or Except values, and external effects (HTTP transport,
the datetime library) become explicit inputs to the functions that
consume them.
-/

/-- A scan record, as built in App._on_enter_ttn (src/descop.py line 526):
the JSON object with fields user_name, boxid and ttn. -/
structure Record where
  user_name : String
  boxid : String
  ttn : String
deriving DecidableEq, Repr

/-- One row of the SQLite table
queue(id INTEGER PRIMARY KEY AUTOINCREMENT, payload TEXT NOT NULL)
(src/descop.py lines 62-69).  The payload column holds JSON text;
payload = some r models text that json.loads decodes to the record r,
payload = none models text on which json.loads raises
(the except-pass branch of dequeue_all_offline, lines 96-99). -/
structure Row where
  id : Nat
  payload : Option Record
deriving DecidableEq, Repr

/-- Contents of a readable queue store.  seq models the AUTOINCREMENT
counter of sqlite (the sqlite_sequence entry): every id ever assigned is
at most seq, and DELETE does not reset it. -/
structure StoreData where
  seq : Nat
  rows : List Row
deriving DecidableEq, Repr

/-- The backing store as seen through sqlite3: some d is a readable store
with contents d, none models an unreadable or corrupt store, where every
sqlite call raises.  Each queue function in the source wraps its body in
try-except, so on a corrupt store it swallows the error and leaves the
store as it was. -/
abbrev Store := Option StoreData

/-- The store of a fresh (empty) queue database. -/
def emptyQueue : Store := some ⟨0, []⟩

/-- Embeds enqueue_offline (src/descop.py lines 78-85): INSERT a new row
whose id is the next AUTOINCREMENT value.  json.dumps of a record always
succeeds and round-trips, so the stored payload is some record.  On a
corrupt store the except-pass branch leaves everything unchanged. -/
def enqueue_offline (record : Record) (s : Store) : Store :=
  match s with
  | none => none
  | some d => some ⟨d.seq + 1, d.rows ++ [⟨d.seq + 1, some record⟩]⟩

/-- Insertion step of the model of ORDER BY id ASC. -/
def insertById (row : Row) : List Row → List Row
  | [] => [row]
  | r :: rs => if row.id ≤ r.id then row :: r :: rs else r :: insertById row rs

/-- Model of SELECT ... ORDER BY id ASC: a stable insertion sort on the
id column. -/
def sortById : List Row → List Row
  | [] => []
  | r :: rs => insertById r (sortById rs)

/-- Embeds dequeue_all_offline (src/descop.py lines 88-106): read every
row in id order; json-decode each payload, silently skipping rows whose
payload does not parse; collect the id of EVERY row read; then DELETE all
collected ids and commit.  Returns the decoded records.  On a corrupt
store the except-pass branch returns the empty list and leaves the store
unchanged. -/
def dequeue_all_offline (s : Store) : List Record × Store :=
  match s with
  | none => ([], none)
  | some d =>
    let sorted := sortById d.rows
    let data := sorted.filterMap (fun row => row.payload)
    let ids := sorted.map (fun row => row.id)
    (data, some ⟨d.seq, d.rows.filter (fun row => !(ids.contains row.id))⟩)

/-- Embeds pending_offline_count (src/descop.py lines 109-116):
SELECT COUNT(*); returns 0 on a corrupt store (except branch). -/
def pending_offline_count (s : Store) : Nat :=
  match s with
  | none => 0
  | some d => d.rows.length

/-- Embeds App._sync_offline (src/descop.py lines 909-931).  The HTTP
side effect of API.add_record is abstracted into the oracle send: send r
is true when the call returns (any response below 400) and false when it
raises (transient network failure or an HTTP error status).  Without a
token the function returns before touching the queue.  Otherwise it
dequeues everything up front, attempts EVERY record in order, collects
the failed ones, and re-enqueues the failed ones at the end.  The first
component of the result is the list of records passed to add_record, in
order. -/
def sync_offline (token : Option String) (send : Record → Bool) (s : Store) :
    List Record × Store :=
  match token with
  | none => ([], s)
  | some _ =>
    let p := dequeue_all_offline s
    let failed := p.1.filter (fun r => !send r)
    (p.1, failed.foldl (fun st r => enqueue_offline r st) p.2)

/-- A sequence of enqueue_offline calls, one per record, left to right:
the store produced by submitting rs while every immediate send fails. -/
def enqueueAll (rs : List Record) (s : Store) : Store :=
  rs.foldl (fun st r => enqueue_offline r st) s

/-- Rows created by consecutive inserts after AUTOINCREMENT value seq. -/
def freshRows (seq : Nat) : List Record → List Row
  | [] => []
  | r :: rs => ⟨seq + 1, some r⟩ :: freshRows (seq + 1) rs

/-- Concrete records used in counterexamples and witnesses. -/
def recA : Record := ⟨"op", "bA", "tA"⟩

def recB : Record := ⟨"op", "bB", "tB"⟩

def recC : Record := ⟨"op", "bC", "tC"⟩

/-- A history record as displayed by App._reload_history (src/descop.py
lines 634-694): the tuple (user_name, boxid, ttn, formatted datetime,
note) built for each cached record that passes the filters.  note is the
server-provided note, or the empty string when the server sent none
(str(rec.get("note", ""))). -/
structure HistRow where
  user_name : String
  boxid : String
  ttn : String
  dt : String
  note : String
deriving DecidableEq, Repr

/-- The joined key used for the pair count (src/descop.py line 670):
pair_key = boxid, a vertical bar, ttn. -/
def pairKey (r : HistRow) : String := r.boxid ++ "|" ++ r.ttn

/-- The string written into the note column when the client heuristic
fires on a record without a server note (src/descop.py line 684). -/
def dupPlaceholder : String := "Можливий дублікат (клієнтська перевірка)"

/-- Embeds the per-row duplicate classification of App._reload_history
(src/descop.py lines 663-685) over the displayed row set rows: a row
with a non-empty note is a duplicate and keeps its note; otherwise the
row is a possible duplicate when its joined pair key, its boxid, or its
ttn occurs more than once among all displayed rows, and then the
placeholder string is written into its note; otherwise it is no
duplicate and keeps its (empty) note.  Result: the duplicate flag
(the tag that highlights the row) and the note column value. -/
def classifyRow (rows : List HistRow) (row : HistRow) : Bool × String :=
  if row.note ≠ "" then (true, row.note)
  else if 1 < rows.countP (fun x => pairKey x == pairKey row) ∨
      1 < rows.countP (fun x => x.boxid == row.boxid) ∨
      1 < rows.countP (fun x => x.ttn == row.ttn) then
    (true, dupPlaceholder)
  else (false, row.note)

/-- Embeds the insertion loop of App._reload_history (src/descop.py
lines 675-694): every row is written to the table with its classified
tag and note; when showDuplicates is set only the rows whose flag is
true are written. -/
def reload_history (showDuplicates : Bool) (rows : List HistRow) :
    List (HistRow × Bool × String) :=
  if showDuplicates then
    (rows.filter (fun row => (classifyRow rows row).1)).map
      (fun row => (row, classifyRow rows row))
  else rows.map (fun row => (row, classifyRow rows row))

/-- First row of the pair-key collision input: boxid contains the bar
used as the join separator. -/
def pipeRow1 : HistRow := ⟨"u", "a|b", "c", "", ""⟩

/-- Second row of the pair-key collision input. -/
def pipeRow2 : HistRow := ⟨"u", "a", "b|c", "", ""⟩

/-- The collision collection: the two rows share neither boxid, nor ttn,
nor the (boxid, ttn) pair, yet their joined keys coincide. -/
def pipeRows : List HistRow := [pipeRow1, pipeRow2]

/-- Rows of the example in the claims: same boxid X1, distinct ttns. -/
def exRow1 : HistRow := ⟨"u", "X1", "T1", "", ""⟩

/-- Second example row, shares the boxid X1 with exRow1. -/
def exRow2 : HistRow := ⟨"u", "X1", "T2", "", ""⟩

/-- The example collection of the claims. -/
def exRows : List HistRow := [exRow1, exRow2]

/-- An example row carrying a non-empty server note. -/
def notedRow : HistRow := ⟨"u", "bx", "tx", "", "server duplicate"⟩

/-- The JSON values the client distinguishes after parsing a response
body: a JSON object (dict) — of which the callers only read the note
field — or any other JSON value. -/
inductive JVal where
  | dict (note : Option String)
  | nondict
deriving DecidableEq, Repr

/-- The exceptions an ApiClient call can raise: ApiError, raised by
ApiClient._handle with the status code and the body in its message
(src/descop.py lines 121-122 and 135), or an exception of the requests
library (connection error or timeout), which _handle never sees and
which propagates as is. -/
inductive ApiException where
  | apiError (status : Nat) (body : Sum JVal String)
  | requestException
deriving DecidableEq, Repr

/-- What ApiClient._handle returns on the non-error path: None for an
empty body, the parsed JSON value, or the raw text when the body does
not parse as JSON. -/
inductive HandleValue where
  | null
  | json (v : JVal)
  | text (s : String)
deriving DecidableEq, Repr

/-- An HTTP response as _handle sees it: the status code, the raw body
text (content), and the result of resp.json() — some v when the body
parses as JSON, none when resp.json() raises. -/
structure HttpResp where
  status : Nat
  content : String
  json : Option JVal
deriving DecidableEq, Repr

/-- Embeds ApiClient._handle (src/descop.py lines 129-141): any status
of 400 or above raises ApiError carrying the status and the body (the
parsed JSON if it parses, the raw text otherwise); below 400, an empty
body yields None, a JSON body yields the parsed value, and anything
else yields the raw text. -/
def handle (resp : HttpResp) : Except ApiException HandleValue :=
  if 400 ≤ resp.status then
    .error (.apiError resp.status
      (match resp.json with
       | some v => Sum.inl v
       | none => Sum.inr resp.content))
  else if resp.content = "" then .ok .null
  else
    match resp.json with
    | some v => .ok (.json v)
    | none => .ok (.text resp.content)

/-- The kind of outcome a caller of _handle can observe by exception
class: success, ApiError, or a propagated requests exception. -/
inductive ErrKind where
  | ok
  | apiError
  | requestException
deriving DecidableEq, Repr

/-- Collapse an outcome to the kind observable by except clauses. -/
def errKind : Except ApiException HandleValue → ErrKind
  | .ok _ => .ok
  | .error (.apiError _ _) => .apiError
  | .error .requestException => .requestException

/-- Embeds a full API.add_record call (src/descop.py lines 157-168): the
transport event is either a response (Sum.inl) handed to _handle, or a
raised requests exception (Sum.inr).  On success the caller keeps the
parsed dict, replacing any non-dict result by an empty dict, of which
App._on_enter_ttn reads only the note field. -/
def add_record_result (ev : Sum HttpResp Unit) :
    Except ApiException (Option String) :=
  match ev with
  | .inr _ => .error .requestException
  | .inl resp =>
    match handle resp with
    | .error e => .error e
    | .ok (.json (.dict note)) => .ok note
    | .ok _ => .ok none

/-- The status label App._on_enter_ttn leaves in the scan tab. -/
inductive ScanStatus where
  | needsLogin
  | duplicate (note : String)
  | success
  | offlineSaved
deriving DecidableEq, Repr

/-- Embeds the submission path of App._on_enter_ttn (src/descop.py lines
520-552) after the non-empty checks: without a token the login prompt is
shown and nothing is sent; otherwise the record is sent once through
API.add_record (outcome ev).  If that call returns, a truthy note field
reports a duplicate, else success, and _sync_offline runs.  If it raises
— for ANY exception, ApiError on a 4xx or 5xx as much as a network
error — the record is enqueued into the offline queue and the
offline-saved status is shown. -/
def on_enter_ttn (token : Option String) (ev : Sum HttpResp Unit)
    (send : Record → Bool) (record : Record) (s : Store) :
    ScanStatus × Store :=
  match token with
  | none => (.needsLogin, s)
  | some tok =>
    match add_record_result ev with
    | .ok note? =>
      (match note? with
       | some note => if note = "" then ScanStatus.success else ScanStatus.duplicate note
       | none => ScanStatus.success,
       (sync_offline (some tok) send s).2)
    | .error _ => (.offlineSaved, enqueue_offline record s)

/-- Embeds parse_iso_to_local_str (src/descop.py lines 335-345).  The
datetime library is abstracted: fromiso models datetime.fromisoformat —
some dt when the string parses, none when the constructor raises — and
fmt models strftime with the fixed format of the source.  A missing or
empty timestamp yields the empty string; str.replace substitutes every
occurrence of Z (the source replaces all occurrences, which under the
ISO grammar only ever matters for a trailing Z); a parse failure falls
back to the original string. -/
def parse_iso_to_local_str {DT : Type} (fromiso : String → Option DT)
    (fmt : DT → String) : Option String → String
  | none => ""
  | some t =>
    if t = "" then ""
    else
      match fromiso (t.replace "Z" "+00:00") with
      | some dt => fmt dt
      | none => t

/-- A toy parser that accepts every string: instantiates the abstract
fromisoformat in witnesses. -/
def isoAccept : String → Option Unit := fun _ => some ()

/-- A toy parser that rejects every string. -/
def isoReject : String → Option Unit := fun _ => none

/-- A toy formatter standing in for strftime. -/
def fmtW : Unit → String := fun _ => "2024-01-02 03:04:05"

/-! ### Lemmas about the queue model -/

lemma mem_insertById {a row : Row} {l : List Row} :
    a ∈ insertById row l ↔ a = row ∨ a ∈ l := by
  induction l with
  | nil => simp [insertById]
  | cons b bs ih =>
    simp only [insertById]
    split
    · simp
    · simp [ih]
      tauto

lemma mem_sortById {a : Row} {l : List Row} : a ∈ sortById l ↔ a ∈ l := by
  induction l with
  | nil => simp [sortById]
  | cons b bs ih => simp [sortById, mem_insertById, ih]

lemma insertById_cons_le {row b : Row} {bs : List Row} (h : row.id ≤ b.id) :
    insertById row (b :: bs) = row :: b :: bs := by
  simp [insertById, h]

lemma sortById_pairwise_eq {l : List Row}
    (h : List.Pairwise (fun a b => a.id < b.id) l) : sortById l = l := by
  induction l with
  | nil => rfl
  | cons a as ih =>
    have htail := (List.pairwise_cons.mp h).2
    show insertById a (sortById as) = a :: as
    rw [ih htail]
    cases as with
    | nil => rfl
    | cons b bs =>
      exact insertById_cons_le (Nat.le_of_lt ((List.pairwise_cons.mp h).1 b (by simp)))

lemma dequeue_some (d : StoreData) :
    dequeue_all_offline (some d) =
      ((sortById d.rows).filterMap Row.payload, some ⟨d.seq, []⟩) := by
  have hrows : d.rows.filter
      (fun row => !(((sortById d.rows).map (fun row => row.id)).contains row.id)) = [] := by
    rw [List.filter_eq_nil_iff]
    intro row hrow
    simp only [Bool.not_eq_true', Bool.not_eq_false]
    exact List.elem_eq_true_of_mem
      (List.mem_map.mpr ⟨row, mem_sortById.mpr hrow, rfl⟩)
  simp only [dequeue_all_offline, hrows]

lemma foldl_enqueue_some (rs : List Record) (d : StoreData) :
    rs.foldl (fun st r => enqueue_offline r st) (some d) =
      some ⟨d.seq + rs.length, d.rows ++ freshRows d.seq rs⟩ := by
  induction rs generalizing d with
  | nil => simp [freshRows]
  | cons r rs ih =>
    show rs.foldl (fun st r => enqueue_offline r st) (enqueue_offline r (some d)) = _
    rw [show enqueue_offline r (some d)
        = some ⟨d.seq + 1, d.rows ++ [⟨d.seq + 1, some r⟩]⟩ from rfl, ih]
    simp only [freshRows, Option.some.injEq, StoreData.mk.injEq, List.length_cons,
      List.append_assoc, List.singleton_append]
    exact ⟨by omega, trivial⟩

lemma freshRows_filterMap (seq : Nat) (rs : List Record) :
    (freshRows seq rs).filterMap Row.payload = rs := by
  induction rs generalizing seq with
  | nil => simp [freshRows]
  | cons r rs ih => simp [freshRows, List.filterMap_cons, Row.payload, ih]

lemma freshRows_id_gt (seq : Nat) (rs : List Record) :
    ∀ row ∈ freshRows seq rs, seq < row.id := by
  induction rs generalizing seq with
  | nil => simp [freshRows]
  | cons r rs ih =>
    intro row hrow
    simp only [freshRows, List.mem_cons] at hrow
    rcases hrow with h | h
    · simp [h]
    · exact Nat.lt_trans (Nat.lt_succ_self seq) (ih (seq + 1) row h)

lemma freshRows_pairwise (seq : Nat) (rs : List Record) :
    List.Pairwise (fun a b => a.id < b.id) (freshRows seq rs) := by
  induction rs generalizing seq with
  | nil => exact List.Pairwise.nil
  | cons r rs ih =>
    refine List.pairwise_cons.mpr ⟨?_, ih (seq + 1)⟩
    intro row hrow
    exact freshRows_id_gt (seq + 1) rs row hrow

lemma sync_some (tok : String) (send : Record → Bool) (d : StoreData) :
    sync_offline (some tok) send (some d) =
      ((sortById d.rows).filterMap Row.payload,
        some ⟨d.seq +
            (((sortById d.rows).filterMap Row.payload).filter
              (fun r => !send r)).length,
          freshRows d.seq
            (((sortById d.rows).filterMap Row.payload).filter
              (fun r => !send r))⟩) := by
  simp only [sync_offline, dequeue_some]
  exact Prod.ext rfl (foldl_enqueue_some _ ⟨d.seq, []⟩)

/-! ### Claim theorems about the queue and the drain -/

/-- Claim C1 (code bug, evaluation at the failing input): with one pending
entry recA, the snapshot step dequeue_all_offline — the first thing
App._sync_offline does — already deletes the row from the durable store,
before any add_record call is made: the store it returns holds zero rows
while recA is still unsent.  Only when the whole drain finishes is a
failed record re-inserted, under a fresh id (second conjunct).  A process
crash between the two points loses the record, contradicting the claim
that an entry is removed only after its add_record call succeeded. -/
theorem entry_deleted_before_ack :
    dequeue_all_offline (some ⟨1, [⟨1, some recA⟩]⟩) = ([recA], some ⟨1, []⟩) ∧
    pending_offline_count (dequeue_all_offline (some ⟨1, [⟨1, some recA⟩]⟩)).2 = 0 ∧
    sync_offline (some "tok") (fun _ => false) (some ⟨1, [⟨1, some recA⟩]⟩) =
      ([recA], some ⟨2, [⟨2, some recA⟩]⟩) := by
  refine ⟨?_, rfl, ?_⟩ <;> rfl

/-- Claim C2 (counterexample): queue holding recA, recB, recC in that
order; the send oracle fails exactly on recB (a transient failure).  The
drain does NOT stop at recB: the list of records passed to add_record is
the whole of recA, recB, recC — recC is attempted after the failed recB —
and afterwards only recB is queued again; recC is not left in the queue.
This contradicts the claimed stop-at-first-transient-failure policy. -/
theorem sync_continues_after_transient_failure :
    sync_offline (some "tok") (fun r => !(r == recB))
        (some ⟨3, [⟨1, some recA⟩, ⟨2, some recB⟩, ⟨3, some recC⟩]⟩) =
      ([recA, recB, recC], some ⟨4, [⟨4, some recB⟩]⟩) := by
  decide

/-- Claim C2 (amended): during a drain, EVERY pending entry is attempted,
in non-decreasing id order; the entries whose send failed — and only
those — are re-enqueued at the end of the drain, in their original
relative order, under fresh ids; entries that were delivered (before or
after a failure) are not requeued. -/
theorem sync_attempts_all_requeues_failed (tok : String) (send : Record → Bool)
    (d : StoreData) :
    (sync_offline (some tok) send (some d)).1 =
      (sortById d.rows).filterMap Row.payload ∧
    (sync_offline (some tok) send (some d)).2 =
      some ⟨d.seq +
          (((sortById d.rows).filterMap Row.payload).filter
            (fun r => !send r)).length,
        freshRows d.seq
          (((sortById d.rows).filterMap Row.payload).filter
            (fun r => !send r))⟩ ∧
    (freshRows d.seq
        (((sortById d.rows).filterMap Row.payload).filter
          (fun r => !send r))).filterMap Row.payload =
      ((sortById d.rows).filterMap Row.payload).filter (fun r => !send r) := by
  refine ⟨?_, ?_, freshRows_filterMap _ _⟩ <;> rw [sync_some]

/-- Claim C5: records enqueued offline in some order are, on a drain in
which every send succeeds, delivered in exactly that order.  Starting
from an empty queue database, enqueueing rs and draining passes exactly
rs, in order, to add_record, and leaves the queue empty. -/
theorem drain_delivers_in_enqueue_order (rs : List Record) (tok : String)
    (send : Record → Bool) (h : ∀ r ∈ rs, send r = true) :
    (dequeue_all_offline (enqueueAll rs emptyQueue)).1 = rs ∧
    sync_offline (some tok) send (enqueueAll rs emptyQueue) =
      (rs, some ⟨rs.length, []⟩) := by
  have he : enqueueAll rs emptyQueue = some ⟨rs.length, freshRows 0 rs⟩ := by
    have hf := foldl_enqueue_some rs ⟨0, []⟩
    simpa [enqueueAll, emptyQueue] using hf
  have hsorted : sortById (freshRows 0 rs) = freshRows 0 rs :=
    sortById_pairwise_eq (freshRows_pairwise 0 rs)
  have hpend : (sortById (freshRows 0 rs)).filterMap Row.payload = rs := by
    rw [hsorted]
    exact freshRows_filterMap 0 rs
  have hfail : rs.filter (fun r => !send r) = [] := by
    rw [List.filter_eq_nil_iff]
    intro a ha
    simp [h a ha]
  constructor
  · rw [he, dequeue_some]
    exact hpend
  · rw [he, sync_some]
    simp [hpend, hfail, freshRows]

/-- Witness for C5 at a concrete input: three records enqueued in the
order recA, recB, recC are delivered in that order by a fully successful
drain, which empties the queue. -/
theorem drain_delivers_in_enqueue_order_witness :
    sync_offline (some "tok") (fun _ => true) (enqueueAll [recA, recB, recC] emptyQueue) =
      ([recA, recB, recC], some ⟨3, []⟩) :=
  (drain_delivers_in_enqueue_order [recA, recB, recC] "tok" (fun _ => true)
    (fun _ _ => rfl)).2

/-- Claim C8 (counterexample): on an unreadable store, dequeue_all_offline
swallows the error but does NOT discard and recreate an empty store: the
store it leaves behind is still the corrupt one, not emptyQueue, and the
operations afterwards do not behave as over an empty store — enqueueing a
record into it and counting yields 0, whereas the same enqueue on an
empty store yields count 1. -/
theorem corrupt_store_kept_not_discarded :
    (dequeue_all_offline none).2 = none ∧
    (dequeue_all_offline none).2 ≠ emptyQueue ∧
    pending_offline_count (enqueue_offline recA (dequeue_all_offline none).2) = 0 ∧
    pending_offline_count (enqueue_offline recA emptyQueue) = 1 := by
  refine ⟨rfl, by decide, rfl, rfl⟩

/-- Claim C8 (amended): a failure of the backing store never propagates to
any caller of the queue operations — each operation catches the error and
returns an empty or zero result (enqueue silently does nothing) — but the
unreadable store is left in place rather than discarded and recreated. -/
theorem storage_error_swallowed (r : Record) (tok : String) (send : Record → Bool) :
    enqueue_offline r none = none ∧
    dequeue_all_offline none = ([], none) ∧
    pending_offline_count none = 0 ∧
    sync_offline (some tok) send none = ([], none) := by
  exact ⟨rfl, rfl, rfl, rfl⟩

/-- Claim C9: dequeue_all_offline deletes from the store every row it
reads — the store it returns holds zero rows, whatever was in the store,
including rows whose payload does not parse as JSON — while the returned
list carries only the records of the rows that did parse.  A corrupt
payload is therefore discarded for good by a single drain and is never
handed to any caller. -/
theorem drain_discards_unparseable (d : StoreData) :
    (dequeue_all_offline (some d)).2 = some ⟨d.seq, []⟩ ∧
    (dequeue_all_offline (some d)).1 = (sortById d.rows).filterMap Row.payload ∧
    ∀ rec ∈ (dequeue_all_offline (some d)).1,
      ∃ row ∈ d.rows, row.payload = some rec := by
  refine ⟨by rw [dequeue_some], by rw [dequeue_some], ?_⟩
  intro rec hrec
  rw [dequeue_some] at hrec
  obtain ⟨row, hrow, hp⟩ := List.mem_filterMap.mp hrec
  exact ⟨row, mem_sortById.mp hrow, hp⟩

/-- Witness for C9 at a concrete input: a store holding an unparseable
row (id 1) and a parseable one (id 2, recA).  The drain leaves zero rows
behind, and recA — the single returned record — stems from the parseable
row. -/
theorem drain_discards_unparseable_witness :
    (dequeue_all_offline (some ⟨2, [⟨1, none⟩, ⟨2, some recA⟩]⟩)).2 = some ⟨2, []⟩ ∧
    ∃ row ∈ ([⟨1, none⟩, ⟨2, some recA⟩] : List Row), row.payload = some recA :=
  ⟨(drain_discards_unparseable ⟨2, [⟨1, none⟩, ⟨2, some recA⟩]⟩).1,
   (drain_discards_unparseable ⟨2, [⟨1, none⟩, ⟨2, some recA⟩]⟩).2.2 recA (by decide)⟩

/-! ### Lemmas and claim theorems about the classifier, the API layer and
the date helper -/

lemma one_lt_countP_iff {α : Type} [DecidableEq α] {l : List α} {a : α}
    {p : α → Bool} (ha : a ∈ l) (hpa : p a = true) :
    1 < l.countP p ↔ ∃ b ∈ l.erase a, p b = true := by
  have hperm := List.perm_cons_erase ha
  rw [List.Perm.countP_eq p hperm, List.countP_cons, hpa, if_pos rfl]
  constructor
  · intro h
    exact List.countP_pos_iff.mp (by omega)
  · intro h
    have := List.countP_pos_iff.mpr h
    omega

/-- Claim C6 (counterexample): over the two rows with boxid a|b and ttn c
versus boxid a and ttn b|c — which share neither boxid, nor ttn, nor the
(boxid, ttn) pair — the classifier still marks both as possible
duplicates, because the joined keys boxid then bar then ttn coincide.
The claimed rule (possible duplicate exactly when some other record
shares the pair, the boxid or the ttn) is therefore false of the code. -/
theorem classify_pair_key_collision :
    (classifyRow pipeRows pipeRow1).1 = true ∧
    (classifyRow pipeRows pipeRow2).1 = true ∧
    pipeRow1.note = "" ∧ pipeRow2.note = "" ∧
    pipeRow2.boxid ≠ pipeRow1.boxid ∧ pipeRow2.ttn ≠ pipeRow1.ttn ∧
    ¬(pipeRow2.boxid = pipeRow1.boxid ∧ pipeRow2.ttn = pipeRow1.ttn) := by
  decide

/-- Claim C6 (amended): a record with a non-empty server note is marked
duplicate (handled by the companion theorem for C7); a record without a
note is marked possible duplicate exactly when some other record of the
collection shares its joined key boxid-bar-ttn — which coincides with
sharing the (boxid, ttn) pair except that distinct pairs can collide
when a boxid contains a bar — or shares its boxid alone or its ttn
alone. -/
theorem classify_dup_iff (rows : List HistRow) (row : HistRow)
    (hmem : row ∈ rows) (hnote : row.note = "") :
    (classifyRow rows row).1 = true ↔
      ∃ b ∈ rows.erase row,
        pairKey b = pairKey row ∨ b.boxid = row.boxid ∨ b.ttn = row.ttn := by
  have h1 := one_lt_countP_iff (p := fun x => pairKey x == pairKey row) hmem (by simp)
  have h2 := one_lt_countP_iff (p := fun x => x.boxid == row.boxid) hmem (by simp)
  have h3 := one_lt_countP_iff (p := fun x => x.ttn == row.ttn) hmem (by simp)
  unfold classifyRow
  rw [if_neg (by simp [hnote])]
  by_cases hc : (1 < rows.countP (fun x => pairKey x == pairKey row) ∨
      1 < rows.countP (fun x => x.boxid == row.boxid) ∨
      1 < rows.countP (fun x => x.ttn == row.ttn))
  · rw [if_pos hc]
    refine iff_of_true rfl ?_
    rcases hc with hp | hp | hp
    · obtain ⟨b, hb, hpb⟩ := h1.mp hp
      exact ⟨b, hb, Or.inl (by simpa using hpb)⟩
    · obtain ⟨b, hb, hpb⟩ := h2.mp hp
      exact ⟨b, hb, Or.inr (Or.inl (by simpa using hpb))⟩
    · obtain ⟨b, hb, hpb⟩ := h3.mp hp
      exact ⟨b, hb, Or.inr (Or.inr (by simpa using hpb))⟩
  · rw [if_neg hc]
    refine iff_of_false (by simp) ?_
    rintro ⟨b, hb, hsh | hsh | hsh⟩
    · exact hc (Or.inl (h1.mpr ⟨b, hb, by simp [hsh]⟩))
    · exact hc (Or.inr (Or.inl (h2.mpr ⟨b, hb, by simp [hsh]⟩)))
    · exact hc (Or.inr (Or.inr (h3.mpr ⟨b, hb, by simp [hsh]⟩)))

/-- Witness for C6 at the input of the claims: over the rows (X1, T1)
and (X1, T2), the first row — sharing its boxid with the second — is
marked possible duplicate. -/
theorem classify_dup_iff_witness :
    (classifyRow exRows exRow1).1 = true :=
  (classify_dup_iff exRows exRow1 (by decide) rfl).mpr
    ⟨exRow2, by decide, Or.inr (Or.inl rfl)⟩

/-- Claim C7 (counterexample): for a record whose server note is empty
and on which the heuristic fires, the note column of the output carries
the heuristic placeholder instead of the (empty) server note: the
heuristic outcome overwrites the server-note field, so the two signals
are not exposed independently. -/
theorem heuristic_overwrites_note_field :
    exRow1.note = "" ∧
    (classifyRow exRows exRow1).2 = dupPlaceholder ∧
    (classifyRow exRows exRow1).2 ≠ exRow1.note := by
  decide

/-- Claim C7 (amended): the classifier merges the two signals into the
note column and the single duplicate flag: a record with a non-empty
server note is flagged and keeps its note, and a record without a server
note gets the placeholder string written into its note column exactly
when the heuristic flag is set — the note column is the heuristic
outcome there, not an independent server-note field. -/
theorem note_field_merges_signals (rows : List HistRow) (row : HistRow) :
    (row.note ≠ "" → classifyRow rows row = (true, row.note)) ∧
    (row.note = "" →
      (classifyRow rows row).2 =
        cond (classifyRow rows row).1 dupPlaceholder "") := by
  constructor
  · intro h
    simp [classifyRow, h]
  · intro h
    by_cases hc : (1 < rows.countP (fun x => pairKey x == pairKey row) ∨
        1 < rows.countP (fun x => x.boxid == row.boxid) ∨
        1 < rows.countP (fun x => x.ttn == row.ttn))
    · simp [classifyRow, h, hc]
    · simp [classifyRow, h, hc]

/-- Witness for C7 at concrete inputs: a row with a non-empty server
note keeps it and is flagged; for the example row without a note the
note column equals the heuristic outcome. -/
theorem note_field_merges_signals_witness :
    classifyRow exRows notedRow = (true, "server duplicate") ∧
    (classifyRow exRows exRow1).2 =
      cond (classifyRow exRows exRow1).1 dupPlaceholder "" :=
  ⟨(note_field_merges_signals exRows notedRow).1 (by decide),
   (note_field_merges_signals exRows exRow1).2 rfl⟩

/-- Claim C4 (counterexample): a 404 response and a 500 response raise
the very same exception kind, ApiError — the code defines no separate
AuthOrValidationError and TransientError, so a caller catching by
exception class cannot tell a non-retryable 4xx from a retryable 5xx. -/
theorem same_kind_for_4xx_and_5xx :
    errKind (handle ⟨404, "not found", none⟩) = ErrKind.apiError ∧
    errKind (handle ⟨500, "server error", none⟩) = ErrKind.apiError ∧
    errKind (handle ⟨404, "not found", none⟩) =
      errKind (handle ⟨500, "server error", none⟩) :=
  ⟨rfl, rfl, rfl⟩

/-- Claim C4 (amended): the classification _handle applies to every
response: any status of 400 or above — 4xx and 5xx alike — raises the
single ApiError kind, carrying the status and body only in its message;
any status below 400 is a success, yielding None for an empty body, the
parsed JSON value, or the raw text; a network exception or timeout
propagates as the distinct requests exception kind.  Callers can
distinguish transport failures from HTTP errors, but not 4xx from 5xx
by kind. -/
theorem handle_classification (resp : HttpResp) :
    (400 ≤ resp.status →
      handle resp = .error (.apiError resp.status
        (match resp.json with
         | some v => Sum.inl v
         | none => Sum.inr resp.content))) ∧
    (resp.status < 400 → resp.content = "" → handle resp = .ok .null) ∧
    (resp.status < 400 → resp.content ≠ "" → resp.json = none →
      handle resp = .ok (.text resp.content)) ∧
    (∀ v, resp.status < 400 → resp.content ≠ "" → resp.json = some v →
      handle resp = .ok (.json v)) ∧
    add_record_result (Sum.inr ()) =
      Except.error ApiException.requestException := by
  refine ⟨?_, ?_, ?_, ?_, rfl⟩
  · intro h
    simp [handle, h]
  · intro h hc
    simp [handle, Nat.not_le.mpr h, hc]
  · intro h hc hj
    simp [handle, Nat.not_le.mpr h, hc, hj]
  · intro v h hc hj
    simp [handle, Nat.not_le.mpr h, hc, hj]

/-- Witness for C4 at concrete responses: one instance of each branch of
the amended classification. -/
theorem handle_classification_witness :
    handle ⟨404, "x", none⟩ =
      Except.error (ApiException.apiError 404 (Sum.inr "x")) ∧
    handle ⟨200, "", none⟩ = Except.ok HandleValue.null ∧
    handle ⟨200, "ok", none⟩ = Except.ok (HandleValue.text "ok") ∧
    handle ⟨200, "j", some (JVal.dict (some "dup"))⟩ =
      Except.ok (HandleValue.json (JVal.dict (some "dup"))) :=
  ⟨(handle_classification ⟨404, "x", none⟩).1 (by decide),
   (handle_classification ⟨200, "", none⟩).2.1 (by decide) rfl,
   (handle_classification ⟨200, "ok", none⟩).2.2.1 (by decide) (by decide) rfl,
   (handle_classification ⟨200, "j", some (JVal.dict (some "dup"))⟩).2.2.2.1
     (JVal.dict (some "dup")) (by decide) (by decide) rfl⟩

/-- Claim C3 (counterexample): a 401 response — a non-retryable 4xx
failure, raised as ApiError — does NOT produce a distinct rejected
outcome without enqueuing: the submission path catches every exception
alike and enqueues the record into the persistent queue, reporting the
same offline-saved status used for transient failures. -/
theorem rejected_4xx_still_enqueued :
    on_enter_ttn (some "tok") (Sum.inl ⟨401, "invalid credential", none⟩)
        (fun _ => true) recA emptyQueue =
      (ScanStatus.offlineSaved, some ⟨1, [⟨1, some recA⟩]⟩) ∧
    errKind (handle ⟨401, "invalid credential", none⟩) = ErrKind.apiError :=
  ⟨rfl, rfl⟩

/-- Claim C3 (amended): whenever the immediate send raises — a 4xx
ApiError, a 5xx ApiError or a network exception, without distinction —
the record is appended to the persistent queue and the offline-saved
status is shown; the code has no rejected outcome and enqueues on
non-retryable failures too. -/
theorem any_failure_enqueues (tok : String) (ev : Sum HttpResp Unit)
    (e : ApiException) (send : Record → Bool) (record : Record) (d : StoreData)
    (h : add_record_result ev = .error e) :
    on_enter_ttn (some tok) ev send record (some d) =
      (ScanStatus.offlineSaved,
        some ⟨d.seq + 1, d.rows ++ [⟨d.seq + 1, some record⟩]⟩) := by
  simp [on_enter_ttn, h, enqueue_offline]

/-- Witness for C3 (amended) at a concrete input: a 503 response leads to
the record recB being enqueued and the offline-saved status. -/
theorem any_failure_enqueues_witness :
    on_enter_ttn (some "tok") (Sum.inl ⟨503, "unavailable", none⟩)
        (fun _ => true) recB (some ⟨0, []⟩) =
      (ScanStatus.offlineSaved, some ⟨1, [⟨1, some recB⟩]⟩) :=
  any_failure_enqueues "tok" (Sum.inl ⟨503, "unavailable", none⟩)
    (ApiException.apiError 503 (Sum.inr "unavailable")) (fun _ => true) recB
    ⟨0, []⟩ rfl

/-- Claim C10: parse_iso_to_local_str is a total function of its input —
the embedding returns a string on every input, the try-except of the
source being the none branch of the abstract parser — and: a missing or
empty timestamp yields the empty string; when the input with its Z
replaced by +00:00 parses, the result is the strftime rendering of the
parsed value; otherwise the original input is returned unchanged. -/
theorem parse_iso_total {DT : Type} (fromiso : String → Option DT)
    (fmt : DT → String) :
    parse_iso_to_local_str fromiso fmt none = "" ∧
    parse_iso_to_local_str fromiso fmt (some "") = "" ∧
    (∀ s dt, s ≠ "" → fromiso (s.replace "Z" "+00:00") = some dt →
      parse_iso_to_local_str fromiso fmt (some s) = fmt dt) ∧
    (∀ s, s ≠ "" → fromiso (s.replace "Z" "+00:00") = none →
      parse_iso_to_local_str fromiso fmt (some s) = s) := by
  refine ⟨rfl, rfl, ?_, ?_⟩
  · intro s dt hs hp
    simp [parse_iso_to_local_str, hs, hp]
  · intro s hs hp
    simp [parse_iso_to_local_str, hs, hp]

/-- Witness for C10 at concrete inputs: with a parser that accepts, the
formatted value is returned; with a parser that rejects, the input comes
back unchanged. -/
theorem parse_iso_total_witness :
    parse_iso_to_local_str isoAccept fmtW (some "2024-01-02T03:04:05Z") =
      "2024-01-02 03:04:05" ∧
    parse_iso_to_local_str isoReject fmtW (some "garbage") = "garbage" :=
  ⟨(parse_iso_total isoAccept fmtW).2.2.1 "2024-01-02T03:04:05Z" () (by decide) rfl,
   (parse_iso_total isoReject fmtW).2.2.2 "garbage" (by decide) rfl⟩
